import Mathlib

/-
Verification of the langextract-platform bridge scripts.

The repository has two Python entry points:
  Runner A: src/scripts/enhanced_langextract_runner.py  (stdin JSON config)
  Runner B: src/scripts/langextract_runner.py           (--config file)

This file gives a shallow embedding of both runners.  External effects
(file system, network, the langextract library, the process environment,
wall-clock time, temp-file naming) are passed in explicitly as data, so
each runner becomes a pure function of its configuration and of those
explicit inputs.  Machine floats are modelled as rationals.
-/

/-- JSON values, used to state facts about the exact JSON objects each
runner prints.  Field lists are ordered, matching the deterministic
insertion order of Python dicts serialized by json.dumps. -/
inductive JVal where
  | null
  | b (v : Bool)
  | n (v : ℚ)
  | s (v : String)
  | arr (vs : List JVal)
  | obj (fields : List (String × JVal))

/-- Lookup of a key in a JSON object; none on non-objects. -/
def objGet : JVal → String → Option JVal
  | .obj fields, k => fields.lookup k
  | _, _ => none

/-- Bool test of whether the char list `sub` occurs at the head of the second list. -/
def startsWithL : List Char → List Char → Bool
  | [], _ => true
  | _ :: _, [] => false
  | a :: as, b :: bs => a == b && startsWithL as bs

/-- Bool test of whether the char list `sub` occurs anywhere in the list. -/
def hasInfixL (sub : List Char) : List Char → Bool
  | [] => sub.isEmpty
  | c :: t => startsWithL sub (c :: t) || hasInfixL sub t

/-- Python's substring operator `sub in s` for strings. -/
def pyIn (sub s : String) : Bool := hasInfixL sub.data s.data

/-- Python's `s.startswith(pre)`. -/
def pyStartsWith (s pre : String) : Bool := startsWithL pre.data s.data

/-- Python's `not s.strip()`: true when every character is whitespace
(so the string is empty after stripping). -/
def isBlank (s : String) : Bool := s.data.all Char.isWhitespace

/-- Python's truthiness-based `a or b` on optional strings: `a` when it is a
non-empty string, otherwise the value of `b` (even when `b` is falsy). -/
def pyOr (a b : Option String) : Option String :=
  match a with
  | some s => if s = "" then b else some s
  | none => b

/-- One extraction record as both runners serialize it: the dict built from a
langextract extraction object, with `getattr(..., None)` for the optional
position and confidence fields (src/scripts/langextract_runner.py lines 49-56,
src/scripts/enhanced_langextract_runner.py lines 268-275). -/
structure ExtractionOut where
  extraction_class : String
  extraction_text : String
  attributes : List (String × String)
  position_start : Option Int
  position_end : Option Int
  confidence : Option ℚ
deriving DecidableEq

/-- JSON for an optional integer (null when absent). -/
def optIntJson : Option Int → JVal
  | none => .null
  | some i => .n i

/-- JSON for an optional rational (null when absent). -/
def optRatJson : Option ℚ → JVal
  | none => .null
  | some q => .n q

/-- JSON serialization of one extraction dict, in the key order both runners use. -/
def extractionJson (e : ExtractionOut) : JVal :=
  .obj [("extraction_class", .s e.extraction_class),
        ("extraction_text", .s e.extraction_text),
        ("attributes", .obj (e.attributes.map (fun p => (p.1, JVal.s p.2)))),
        ("position_start", optIntJson e.position_start),
        ("position_end", optIntJson e.position_end),
        ("confidence", optRatJson e.confidence)]

/-
Runner B: src/scripts/langextract_runner.py
-/

/-- Process environment slice Runner B reads: the three API key variables,
in the fallback order LANGEXTRACT_API_KEY, GEMINI_API_KEY, OPENAI_API_KEY
(line 32).  Runner A reads and writes only the gemini field. -/
structure Env3 where
  langextract : Option String
  gemini : Option String
  openai : Option String
deriving DecidableEq

/-- Raw extraction dict inside a configured example; a `none` field models an
absent key, which the subscript access on lines 22-24 turns into a KeyError. -/
structure BRawExtraction where
  extraction_class : Option String
  extraction_text : Option String
  attributes : Option (List (String × String))

/-- Raw example dict from the config file (lines 18-29); `none` models an absent key. -/
structure BRawExample where
  text : Option String
  extractions : Option (List BRawExtraction)

/-- Runner B configuration as loaded from the --config JSON file.  Required
keys are Options because the code indexes them directly and an absent key
raises a KeyError caught by the outer handler. -/
structure BConfigRaw where
  text : Option String
  prompt_description : Option String
  examples : Option (List BRawExample)
  model_id : Option String
  api_key : Option String
  extraction_passes : Option Nat
  max_workers : Option Nat

/-- Extraction in the langextract library's own representation
(lx.data.Extraction, built on lines 21-25). -/
structure LxExtraction where
  extraction_class : String
  extraction_text : String
  attributes : List (String × String)

/-- Example in the library's representation (lx.data.ExampleData, lines 26-29). -/
structure LxExample where
  text : String
  extractions : List LxExtraction

/-- Argument record of the lx.extract call in Runner B (lines 35-43); the
api_key argument shows that Runner B passes the credential as an explicit
parameter instead of writing it to the environment. -/
structure BLibCall where
  text : String
  prompt_description : String
  examples : List LxExample
  model_id : String
  extraction_passes : Nat
  max_workers : Nat
  api_key : Option String

/-- Translation of one raw extraction dict into the library representation,
mirroring the subscript accesses of lines 21-25; a missing key raises
KeyError whose str() is the quoted key name. -/
def translateExtractionB (e : BRawExtraction) : Except String LxExtraction :=
  match e.extraction_class with
  | none => .error "'extraction_class'"
  | some c =>
    match e.extraction_text with
    | none => .error "'extraction_text'"
    | some t =>
      match e.attributes with
      | none => .error "'attributes'"
      | some a => .ok ⟨c, t, a⟩

/-- Translation of one raw example (lines 18-29): the extractions list is
consumed first, then example["text"]. -/
def translateExampleB (ex : BRawExample) : Except String LxExample :=
  match ex.extractions with
  | none => .error "'extractions'"
  | some raws =>
    match raws.mapM translateExtractionB with
    | .error e => .error e
    | .ok exts =>
      match ex.text with
      | none => .error "'text'"
      | some t => .ok ⟨t, exts⟩

/-- Confidence list Runner B averages (line 60): the Python comprehension
filters out extractions whose stored confidence value is None, then reads the
value with dict-get default 1.0.  The default is unreachable: the key is
always present in the dict built on lines 49-56, and the filter has already
removed the None values, so `getD 1` below always returns the stored value. -/
def runnerB_confidences (exts : List ExtractionOut) : List ℚ :=
  (exts.filter (fun e => e.confidence.isSome)).map (fun e => e.confidence.getD 1)

/-- Average confidence Runner B reports (line 61): mean of the filtered
confidences, 0.0 when the filtered list is empty. -/
def runnerB_avg_confidence (exts : List ExtractionOut) : ℚ :=
  let cs := runnerB_confidences exts
  if cs.isEmpty then 0 else cs.sum / cs.length

/-- Metadata block of Runner B's success envelope (lines 58-70). -/
structure BMetadata where
  total_extractions : Nat
  unique_classes : Nat
  average_confidence : ℚ
deriving DecidableEq

/-- Metadata computation of lines 58-61: count, distinct class names, average. -/
def bMetadata (exts : List ExtractionOut) : BMetadata :=
  ⟨exts.length, (exts.map (·.extraction_class)).dedup.length, runnerB_avg_confidence exts⟩

/-- JSON object Runner B prints: either the success envelope of lines 63-71 or
the two-key error object of lines 74-77 and line 92. -/
inductive BPrinted where
  | okB (exts : List ExtractionOut) (meta : BMetadata)
  | errB (msg : String)

/-- JSON serialization of Runner B's printed object, in the dict key order of
the source.  The error object carries only the success flag and the message. -/
def bPrintedJson : BPrinted → JVal
  | .okB exts meta =>
      .obj [("success", .b true),
            ("extractions", .arr (exts.map extractionJson)),
            ("metadata", .obj [("total_extractions", .n meta.total_extractions),
                               ("unique_classes", .n meta.unique_classes),
                               ("average_confidence", .n meta.average_confidence)])]
  | .errB m => .obj [("success", .b false), ("error", .s m)]

/-- Runner B's run_extraction (lines 14-77) as a pure function.  The library
call is an explicit oracle `lib`; the function returns the printed result and,
when lx.extract was reached, the full argument record it was invoked with.
The translation loop runs first, then the api_key fallback chain of line 32,
then the call arguments are read from the config in evaluation order; every
exception becomes the `errB` result via the handler of lines 73-77.
Runner B contains no assignment to os.environ, so no environment output
appears here: the environment is read-only for it. -/
def run_extraction (cfg : BConfigRaw) (env : Env3)
    (lib : BLibCall → Except String (List ExtractionOut)) :
    BPrinted × Option BLibCall :=
  match cfg.examples with
  | none => (.errB "'examples'", none)
  | some raws =>
    match raws.mapM translateExampleB with
    | .error e => (.errB e, none)
    | .ok examples =>
      let api_key := pyOr cfg.api_key (pyOr env.langextract (pyOr env.gemini env.openai))
      match cfg.text with
      | none => (.errB "'text'", none)
      | some text =>
        match cfg.prompt_description with
        | none => (.errB "'prompt_description'", none)
        | some pd =>
          match cfg.model_id with
          | none => (.errB "'model_id'", none)
          | some mid =>
            let call : BLibCall :=
              ⟨text, pd, examples, mid, cfg.extraction_passes.getD 1,
               cfg.max_workers.getD 5, api_key⟩
            match lib call with
            | .error e => (.errB e, some call)
            | .ok exts => (.okB exts (bMetadata exts), some call)

/-- Outcome of one Runner B process run: the printed JSON, the exit status,
the environment when the process ends, and the lx.extract argument record
when the call happened. -/
structure BMainOut where
  printed : BPrinted
  exitCode : Nat
  envAfter : Env3
  libArg : Option BLibCall

/-- Runner B's __main__ block (lines 79-92), after a successful import of the
library (the import guard of lines 8-12 runs before __main__; this function
models the post-import behavior as the claims about it assume).  `cfgLoad` is
the outcome of opening and JSON-decoding the --config file; its failure is
caught at lines 91-92 and printed as the same two-key error object.  No path
calls sys.exit, so the exit status is always 0, and no path writes to
os.environ, so the environment is returned unchanged. -/
def runnerB_main (cfgLoad : Except String BConfigRaw) (env : Env3)
    (lib : BLibCall → Except String (List ExtractionOut)) : BMainOut :=
  match cfgLoad with
  | .error e => ⟨.errB e, 0, env, none⟩
  | .ok cfg =>
    let r := run_extraction cfg env lib
    ⟨r.1, 0, env, r.2⟩

/-
Runner A: src/scripts/enhanced_langextract_runner.py
-/

/-- Availability flags of the optional document-processing imports
(lines 21-43): docx, pdfplumber, openpyxl, python-pptx. -/
structure LibAvail where
  docx : Bool
  pdfplumber : Bool
  openpyxl : Bool
  pptx : Bool
deriving DecidableEq

/-- Branch of extract_text_from_file (lines 47-120) that handles a given file. -/
inductive FileBranch where
  | textRaw
  | pdf
  | word
  | excel
  | ppt
  | html
  | jsonPretty
  | fallbackRaw
deriving DecidableEq

/-- Model of Python's mimetypes.guess_type restricted to the file suffix, for
the extensions this repository dispatches on.  The entries mirror the standard
library's built-in types_map; the ones for .html and .htm (text/html) are the
load-bearing ones.  Unknown extensions map to none. -/
def guess_type (ext : String) : Option String :=
  if ext = ".txt" then some "text/plain"
  else if ext = ".csv" then some "text/csv"
  else if ext = ".html" then some "text/html"
  else if ext = ".htm" then some "text/html"
  else if ext = ".pdf" then some "application/pdf"
  else if ext = ".json" then some "application/json"
  else none

/-- Lines 49-50: when the caller passes no MIME type (or a falsy one), it is
guessed from the path. -/
def effectiveMime (mime0 : Option String) (ext : String) : Option String :=
  match mime0 with
  | none => guess_type ext
  | some m => if m = "" then guess_type ext else some m

/-- Dispatch of extract_text_from_file (lines 54-117) on the effective MIME
type and the lowercased file suffix.  The first guard keeps Python's operator
precedence: (mime_type and 'text' in mime_type) or file_ext in [...]. -/
def fileBranch (mime : Option String) (ext : String) (avail : LibAvail) : FileBranch :=
  if (match mime with | some m => pyIn "text" m | none => false)
      || (ext = ".txt" || ext = ".md" || ext = ".csv") then .textRaw
  else if ext = ".pdf" && avail.pdfplumber then .pdf
  else if (ext = ".docx" || ext = ".doc") && avail.docx then .word
  else if (ext = ".xlsx" || ext = ".xls") && avail.openpyxl then .excel
  else if (ext = ".pptx" || ext = ".ppt") && avail.pptx then .ppt
  else if (ext = ".html" || ext = ".htm")
      || (match mime with | some m => pyIn "html" m | none => false) then .html
  else if ext = ".json" then .jsonPretty
  else .fallbackRaw

/-- Spreadsheet cell as the Excel handler sees it after rendering: none is a
Python None cell, some s is str(cell) for a non-None cell (line 86). -/
abbrev XCell := Option String

/-- Line a row contributes (lines 86-88): the rendered cells joined by tabs,
kept only when some rendered cell is a non-empty string (Python any() on the
list of strings), otherwise nothing. -/
def rowLine (row : List XCell) : Option String :=
  let rowText := row.map (fun c => c.getD "")
  if rowText.any (fun s => s != "") then some (String.intercalate "\t" rowText) else none

/-- Excel handler's line accumulation (lines 81-88): one pass over the sheets,
appending the sheet header then each kept row line, exactly as the imperative
loop builds the `text` list. -/
def excel_lines (sheets : List (String × List (List XCell))) : List String :=
  sheets.foldl (fun acc sheet =>
    sheet.2.foldl (fun acc2 row =>
      match rowLine row with
      | some l => acc2 ++ [l]
      | none => acc2) (acc ++ ["Sheet: " ++ sheet.1])) []

/-- Excel handler's result (line 89): the accumulated lines joined by newlines. -/
def excel_text (sheets : List (String × List (List XCell))) : String :=
  String.intercalate "\n" (excel_lines sheets)

/-- Raw extraction dict inside a Runner A example.  Runner A reads
extraction_class and extraction_text by subscript and attributes with a {}
default (lines 222-226); the claims never exercise a malformed example, so the
two required fields are carried as plain values here. -/
structure ARawExtraction where
  extraction_class : String
  extraction_text : String
  attributes : Option (List (String × String))

/-- Raw example from a Runner A configuration (lines 219-233). -/
structure ARawExample where
  text : String
  extractions : List ARawExtraction

/-- Runner A configuration, one JSON object read from stdin (lines 158-170).
Required keys are Options: a none field models an absent key, which the
validation loop of lines 162-166 reports. -/
structure AConfigRaw where
  inputText : Option String
  promptDescription : Option String
  examples : Option (List ARawExample)
  modelId : Option String
  filePath : Option String
  apiKey : Option String
  extractionPasses : Option Nat
  maxWorkers : Option Nat
  maxCharBuffer : Option Nat

/-- Validation loop of lines 162-166: the first of the four required keys that
is absent, in source order; none when all are present. -/
def firstMissingField (c : AConfigRaw) : Option String :=
  if c.inputText.isNone then some "inputText"
  else if c.promptDescription.isNone then some "promptDescription"
  else if c.examples.isNone then some "examples"
  else if c.modelId.isNone then some "modelId"
  else none

/-- External inputs of one Runner A process run, passed explicitly: the file
system, the URL fetch, the initial GEMINI_API_KEY value, the library import
and the library call outcome, the measured elapsed milliseconds, and the name
tempfile chooses for the visualization file. -/
structure AWorld where
  fileExists : Bool
  fileText : Except String String
  urlText : Except String String
  envGemini : Option String
  libImport : Except String Unit
  libResult : Except String (List ExtractionOut)
  elapsedMs : ℚ
  vizName : String

/-- Line 172 guard `if file_path and os.path.exists(file_path)`: the path must
be present, truthy (non-empty) and name an existing file. -/
def fileGate : Option String → Bool → Bool
  | some fp, ex => fp != "" && ex
  | none, _ => false

/-- Outcome of the input-resolution block of lines 168-201. -/
inductive Resolved where
  | text (s : String)
  | shortCircuit (s : String)
  | failed (msg : String)
deriving DecidableEq

/-- URL branch of lines 195-201: fetch, fail on an empty body, and wrap any
failure message; the inner empty-text ValueError is caught by the same
handler, so its message gets the same wrapper. -/
def urlResolve (w : AWorld) : Resolved :=
  match w.urlText with
  | .error e => .failed ("URL processing failed: " ++ e)
  | .ok t =>
    if isBlank t then .failed "URL processing failed: No text could be extracted from the URL"
    else .text t

/-- Input resolution of lines 168-201.  File branch: extract, fail on blank
text, short-circuit on the literal sentinel prompt, wrapping failures as
"File processing failed: ...".  Otherwise the URL branch fires when the
literal inputText starts with http:// or https://; otherwise the literal
inputText is used unchanged. -/
def resolveInput (c : AConfigRaw) (w : AWorld) : Resolved :=
  let it := c.inputText.getD ""
  if fileGate c.filePath w.fileExists then
    match w.fileText with
    | .error e => .failed ("File processing failed: " ++ e)
    | .ok t =>
      if isBlank t then .failed "File processing failed: No text could be extracted from the file"
      else if c.promptDescription.getD "" = "Extract text content" then .shortCircuit t
      else .text t
  else if pyStartsWith it "http://" || pyStartsWith it "https://" then urlResolve w
  else .text it

/-- Stage the run reached, before elapsed time and the temp-file name are
stamped onto the output. -/
inductive ACore where
  | failed (msg : String)
  | extractOnly (text : String)
  | completed (text : String) (exts : List ExtractionOut)
deriving DecidableEq

/-- Core observations of one Runner A run: the stage reached, whether
lx.extract was invoked and with which resolved text, and the value of
GEMINI_API_KEY when the process ends. -/
structure ACoreOut where
  core : ACore
  libCalled : Bool
  libInput : Option String
  envGeminiAfter : Option String
deriving DecidableEq

/-- Main flow of lines 153-247 up to the result normalization: validation,
input resolution, the api-key fallback `config.get('apiKey') or
os.environ.get('GEMINI_API_KEY')` with the explicit failure of line 206, the
environment write of line 209, the deferred library import, and the guarded
lx.extract call whose failure is wrapped at line 247.  Every raise lands in
the outer handler of lines 298-306. -/
def runnerA_core (c : AConfigRaw) (w : AWorld) : ACoreOut :=
  match firstMissingField c with
  | some f => ⟨.failed ("Missing required field: " ++ f), false, none, w.envGemini⟩
  | none =>
    match resolveInput c w with
    | .failed m => ⟨.failed m, false, none, w.envGemini⟩
    | .shortCircuit t => ⟨.extractOnly t, false, none, w.envGemini⟩
    | .text t =>
      match pyOr c.apiKey w.envGemini with
      | none =>
        ⟨.failed "No API key provided. Set GEMINI_API_KEY environment variable.",
         false, none, w.envGemini⟩
      | some k =>
        if k = "" then
          ⟨.failed "No API key provided. Set GEMINI_API_KEY environment variable.",
           false, none, w.envGemini⟩
        else
          match w.libImport with
          | .error e => ⟨.failed ("LangExtract library not available: " ++ e), false, none, some k⟩
          | .ok _ =>
            match w.libResult with
            | .error e =>
              ⟨.failed ("LangExtract processing failed: " ++ e), true, some t, some k⟩
            | .ok exts => ⟨.completed t exts, true, some t, some k⟩

/-- Average confidence Runner A reports (lines 266-285): confidences of the
extractions whose confidence is not None, averaged; the initial 0 of line 261
survives when no extraction reports one. -/
def avgConfidenceA (exts : List ExtractionOut) : ℚ :=
  let cs := exts.filterMap (·.confidence)
  if cs.isEmpty then 0 else cs.sum / cs.length

/-- Success envelope of Runner A (lines 252-294): the initial zeroed metadata
of lines 253-263, overwritten at lines 280-285 when the library returned a
non-empty extraction list, plus the visualization file path recorded at lines
288-294 exactly when the extraction list is non-empty. -/
structure AEnvelope where
  extractions : List ExtractionOut
  totalExtractions : Nat
  uniqueClasses : Nat
  processingTime : ℚ
  inputLength : Nat
  averageConfidence : ℚ
  visualization_file : Option String
deriving DecidableEq

/-- Construction of the success envelope from the library's extraction list,
the resolved input text, the measured elapsed milliseconds and the temp-file
name tempfile chose (lines 250-294). -/
def buildEnvelope (exts : List ExtractionOut) (t : String) (pt : ℚ) (viz : String) :
    AEnvelope :=
  if exts.isEmpty then
    { extractions := [], totalExtractions := 0, uniqueClasses := 0,
      processingTime := pt, inputLength := t.length, averageConfidence := 0,
      visualization_file := none }
  else
    { extractions := exts, totalExtractions := exts.length,
      uniqueClasses := (exts.map (·.extraction_class)).dedup.length,
      processingTime := pt, inputLength := t.length,
      averageConfidence := avgConfidenceA exts,
      visualization_file := some viz }

/-- JSON object Runner A prints: the text-extraction short-circuit envelope of
lines 180-188, the full success envelope of lines 252-296, or the error object
of lines 299-305. -/
inductive AOutput where
  | extractOnly (extractedText : String) (inputLength : Nat) (processingTime : ℚ)
  | full (env : AEnvelope)
  | err (msg : String)
deriving DecidableEq

/-- Outcome of one Runner A process run: the printed JSON, the exit status,
whether lx.extract was invoked and with which text, and the final value of
GEMINI_API_KEY. -/
structure ARun where
  output : AOutput
  exitCode : Nat
  libCalled : Bool
  libInput : Option String
  envGeminiAfter : Option String
deriving DecidableEq

/-- Runner A's main (lines 153-306) as a pure function: the core flow, with
the elapsed time stamped into whichever envelope is printed and the temp-file
name into the visualization field; a failure prints the error object and
exits 1 (line 306), every other path exits 0. -/
def runnerA_main (c : AConfigRaw) (w : AWorld) : ARun :=
  let co := runnerA_core c w
  { output :=
      match co.core with
      | .failed m => .err m
      | .extractOnly t => .extractOnly t t.length w.elapsedMs
      | .completed t exts => .full (buildEnvelope exts t w.elapsedMs w.vizName),
    exitCode := match co.core with | .failed _ => 1 | _ => 0,
    libCalled := co.libCalled,
    libInput := co.libInput,
    envGeminiAfter := co.envGeminiAfter }

/-- JSON serialization of Runner A's printed object, in the dict key order of
the source.  The error object of lines 299-304 also carries the exception
class name and a traceback string; the two are abstracted as the class name of
the ValueError every modelled failure raises and an opaque placeholder, since
no claim inspects their contents. -/
def aOutputJson : AOutput → JVal
  | .extractOnly t len pt =>
      .obj [("success", .b true), ("extractedText", .s t),
            ("metadata", .obj [("inputLength", .n len), ("processingTime", .n pt)])]
  | .full e =>
      .obj ([("success", .b true),
             ("extractions", .arr (e.extractions.map extractionJson)),
             ("metadata", .obj [("totalExtractions", .n e.totalExtractions),
                                ("uniqueClasses", .n e.uniqueClasses),
                                ("processingTime", .n e.processingTime),
                                ("inputLength", .n e.inputLength),
                                ("averageConfidence", .n e.averageConfidence)])] ++
            (match e.visualization_file with
             | some v => [("visualization_file", JVal.s v)]
             | none => []))
  | .err m =>
      .obj [("success", .b false), ("error", .s m),
            ("type", .s "ValueError"), ("traceback", .s "traceback-text")]

/-- Masking of the one field the idempotence property allows to differ: the
elapsed-time field is zeroed wherever it occurs. -/
def scrubTimeOnly : AOutput → AOutput
  | .extractOnly t n _ => .extractOnly t n 0
  | .full e => .full { e with processingTime := 0 }
  | .err m => .err m

/-- Masking of both volatile fields of a Runner A envelope: the elapsed-time
field and the visualization temp-file path. -/
def scrubVolatile : AOutput → AOutput
  | .extractOnly t n _ => .extractOnly t n 0
  | .full e => .full { e with processingTime := 0, visualization_file := none }
  | .err m => .err m

/-- Projection of the visualization file path out of a printed object. -/
def vizOf : AOutput → Option String
  | .full e => e.visualization_file
  | _ => none

/-
Concrete instances used by witnesses and counterexamples.
-/

/-- Baseline external world for Runner A: no file, trivial oracles. -/
def w0 : AWorld :=
  { fileExists := false, fileText := .ok "", urlText := .ok "",
    envGemini := none, libImport := .ok (), libResult := .ok [],
    elapsedMs := 0, vizName := "" }

/-- Empty process environment. -/
def env0 : Env3 := ⟨none, none, none⟩

/-- Library oracle that returns no extractions. -/
def lib0 : BLibCall → Except String (List ExtractionOut) := fun _ => .ok []

/-- Extraction with class A and confidence one half. -/
def extA : ExtractionOut := ⟨"A", "x", [], none, none, some (1 / 2)⟩

/-- Extraction with class A and confidence seven tenths. -/
def extA7 : ExtractionOut := ⟨"A", "y", [], none, none, some (7 / 10)⟩

/-- Extraction with class B and a missing confidence. -/
def extB : ExtractionOut := ⟨"B", "z", [], none, none, none⟩

/-- Valid Runner A configuration with a literal, non-URL input text. -/
def cfgLit : AConfigRaw :=
  { inputText := some "hello", promptDescription := some "find things",
    examples := some [], modelId := some "gemini-2.5-flash",
    filePath := none, apiKey := some "k",
    extractionPasses := none, maxWorkers := none, maxCharBuffer := none }

/-- World in which the library returns one extraction without a confidence. -/
def wOneExt : AWorld := { w0 with libResult := .ok [extB] }

/-- Runner A configuration whose required keys are all absent. -/
def cfgEmpty : AConfigRaw :=
  { inputText := none, promptDescription := none, examples := none,
    modelId := none, filePath := none, apiKey := none,
    extractionPasses := none, maxWorkers := none, maxCharBuffer := none }

/-- Runner A configuration carrying the text-extraction sentinel prompt and a file path. -/
def cfgSentinel : AConfigRaw :=
  { cfgLit with promptDescription := some "Extract text content",
                filePath := some "/tmp/in.txt" }

/-- World in which /tmp/in.txt exists and holds the text "file body". -/
def wFile : AWorld := { w0 with fileExists := true, fileText := .ok "file body" }

/-- Runner A configuration naming a file path that does not exist. -/
def cfgGhost : AConfigRaw := { cfgLit with filePath := some "/tmp/ghost.txt" }

/-- Runner B configuration with a caller-supplied API key. -/
def bCfg : BConfigRaw :=
  { text := some "t", prompt_description := some "p", examples := some [],
    model_id := some "m", api_key := some "caller-key",
    extraction_passes := none, max_workers := none }

/-- Library-call record Runner B builds from bCfg in the empty environment. -/
def bCallExpected : BLibCall := ⟨"t", "p", [], "m", 1, 5, some "caller-key"⟩

/-- Stated from the specification's description of Runner B's averaging, not
from the source: substitute the default 1.0 for each missing confidence, then
average over all extractions; 0 when there are none.  Compared against the
source-derived runnerB_avg_confidence below. -/
def runnerB_avg_confidence_claimed (exts : List ExtractionOut) : ℚ :=
  if exts.isEmpty then 0
  else (exts.map (fun e => e.confidence.getD 1)).sum / exts.length

/-
Helper lemmas shared by the claim theorems.
-/

/-- Runner B's filtered-then-read confidence list is exactly the list of
present confidences. -/
theorem runnerB_confidences_eq_filterMap (exts : List ExtractionOut) :
    runnerB_confidences exts = exts.filterMap (·.confidence) := by
  induction exts with
  | nil => rfl
  | cons e t ih =>
    cases h : e.confidence <;>
      simp_all [runnerB_confidences, List.filter_cons, List.filterMap_cons, h]

/-- Unfolding of the printed object of a Runner A run in terms of the core stage. -/
theorem runnerA_main_output_eq (c : AConfigRaw) (w : AWorld) :
    (runnerA_main c w).output =
      match (runnerA_core c w).core with
      | .failed m => .err m
      | .extractOnly t => .extractOnly t t.length w.elapsedMs
      | .completed t exts => .full (buildEnvelope exts t w.elapsedMs w.vizName) := rfl

/-- Unfolding of the final GEMINI_API_KEY value of a Runner A run. -/
theorem runnerA_main_envAfter_eq (c : AConfigRaw) (w : AWorld) :
    (runnerA_main c w).envGeminiAfter = (runnerA_core c w).envGeminiAfter := rfl

/-- Masking the volatile fields makes the success envelope independent of the
measured elapsed time and of the temp-file name. -/
theorem scrubVolatile_buildEnvelope (exts : List ExtractionOut) (t : String)
    (p1 p2 : ℚ) (v1 v2 : String) :
    scrubVolatile (.full (buildEnvelope exts t p1 v1)) =
    scrubVolatile (.full (buildEnvelope exts t p2 v2)) := by
  unfold scrubVolatile buildEnvelope
  by_cases h : exts.isEmpty <;> simp [h]

/-- Whenever Runner A invokes the extraction library, the text it passes is
the one the input-resolution step produced. -/
theorem runnerA_lib_text (c : AConfigRaw) (w : AWorld)
    (hcall : (runnerA_main c w).libCalled = true) :
    ∃ t, resolveInput c w = .text t ∧ (runnerA_main c w).libInput = some t := by
  have hcall' : (runnerA_core c w).libCalled = true := hcall
  show ∃ t, resolveInput c w = .text t ∧ (runnerA_core c w).libInput = some t
  unfold runnerA_core at hcall' ⊢
  repeat' split at hcall'
  all_goals simp_all

/-- Inner row loop of the Excel handler, rephrased as filterMap. -/
theorem excel_rows_foldl (rows : List (List XCell)) (acc : List String) :
    rows.foldl (fun acc2 row =>
      match rowLine row with
      | some l => acc2 ++ [l]
      | none => acc2) acc = acc ++ rows.filterMap rowLine := by
  induction rows generalizing acc with
  | nil => simp
  | cons r t ih =>
    cases h : rowLine r <;> simp [List.filterMap_cons, h, ih]

/-- Outer sheet loop of the Excel handler, rephrased as flatMap. -/
theorem excel_lines_flatMap (sheets : List (String × List (List XCell)))
    (acc : List String) :
    sheets.foldl (fun acc sheet =>
      sheet.2.foldl (fun acc2 row =>
        match rowLine row with
        | some l => acc2 ++ [l]
        | none => acc2) (acc ++ ["Sheet: " ++ sheet.1])) acc =
    acc ++ sheets.flatMap
      (fun sheet => ("Sheet: " ++ sheet.1) :: sheet.2.filterMap rowLine) := by
  induction sheets generalizing acc with
  | nil => simp
  | cons s t ih =>
    rw [List.foldl_cons]
    rw [excel_rows_foldl, ih]
    simp [List.flatMap_cons]

/-
Claim theorems.
-/

/-- Claim C1, counterexample.  The claim says Runner B substitutes the default
1.0 for a missing confidence before averaging.  On the library result
[extA, extB] with confidences [1/2, none], the code's average (line 60-61 of
src/scripts/langextract_runner.py) is 1/2 because the comprehension's filter
removes the missing value before the dict-get default could apply, while the
claimed computation yields (1/2 + 1)/2 = 3/4.  The two disagree at this
input, so the claim as stated is false of the code. -/
theorem runnerB_confidence_default_never_applied :
    runnerB_avg_confidence [extA, extB] = 1 / 2 ∧
    runnerB_avg_confidence_claimed [extA, extB] = 3 / 4 ∧
    runnerB_avg_confidence [extA, extB] ≠ runnerB_avg_confidence_claimed [extA, extB] := by
  have h1 : runnerB_avg_confidence [extA, extB] = 1 / 2 := by
    simp [runnerB_avg_confidence, runnerB_confidences, extA, extB]
  have h2 : runnerB_avg_confidence_claimed [extA, extB] = 3 / 4 := by
    simp [runnerB_avg_confidence_claimed, extA, extB]
    norm_num
  exact ⟨h1, h2, by rw [h1, h2]; norm_num⟩

/-- Claim C1, amended.  Runner B's average_confidence excludes extractions
whose confidence is missing, exactly as Runner A does (and defaults to 0 when
no extraction reports a confidence): for every extraction list the two
runners' averaging computations agree. -/
theorem runnerB_avg_confidence_matches_runnerA (exts : List ExtractionOut) :
    runnerB_avg_confidence exts = avgConfidenceA exts := by
  simp only [runnerB_avg_confidence, avgConfidenceA, runnerB_confidences_eq_filterMap]

/-- Claim C2, counterexample.  The claim says two invocations with identical
configuration and identical deterministic library response produce envelopes
that differ at most in the processingTime field.  With the valid
configuration cfgLit and a library response containing one extraction, two
runs that even measure the same elapsed time (5 ms) but receive the distinct
temp-file names tempfile guarantees (viz-a, viz-b) print envelopes that still
differ after the processingTime field is masked: the visualization_file field
differs.  So the claim as stated is false for Runner A. -/
theorem runnerA_envelopes_differ_beyond_processing_time :
    scrubTimeOnly (runnerA_main cfgLit
        { wOneExt with elapsedMs := 5, vizName := "viz-a" }).output ≠
    scrubTimeOnly (runnerA_main cfgLit
        { wOneExt with elapsedMs := 5, vizName := "viz-b" }).output := by
  intro h
  have h2 := congrArg vizOf h
  rw [show vizOf (scrubTimeOnly (runnerA_main cfgLit
        { wOneExt with elapsedMs := 5, vizName := "viz-a" }).output) = some "viz-a" from rfl,
      show vizOf (scrubTimeOnly (runnerA_main cfgLit
        { wOneExt with elapsedMs := 5, vizName := "viz-b" }).output) = some "viz-b" from rfl] at h2
  exact absurd h2 (by decide)

/-- Claim C2, amended.  For a fixed configuration and a fixed deterministic
library response, two Runner A invocations print byte-identical JSON
envelopes except for the processingTime field and the visualization_file
field (a fresh temp-file path per run, present only when extractions were
returned): masking those two fields makes the printed objects equal, whatever
elapsed times and temp-file names the two runs observe.  Runner B's envelope
is a pure function of the configuration and the response, so it has no
volatile field at all. -/
theorem runnerA_envelopes_equal_up_to_volatile_fields (c : AConfigRaw) (w : AWorld)
    (t1 t2 : ℚ) (v1 v2 : String) :
    scrubVolatile (runnerA_main c { w with elapsedMs := t1, vizName := v1 }).output =
    scrubVolatile (runnerA_main c { w with elapsedMs := t2, vizName := v2 }).output := by
  have hcore : runnerA_core c { w with elapsedMs := t1, vizName := v1 } =
      runnerA_core c { w with elapsedMs := t2, vizName := v2 } := rfl
  rw [runnerA_main_output_eq, runnerA_main_output_eq, hcore]
  cases h : (runnerA_core c { w with elapsedMs := t2, vizName := v2 }).core with
  | failed m => rfl
  | extractOnly t => rfl
  | completed t exts => exact scrubVolatile_buildEnvelope exts t t1 t2 v1 v2

/-- Claim C3.  The claim says files with extension .html or .htm are parsed
and their visible text returned.  In the code, extract_text_from_file guesses
the MIME type when none is passed (as main always does), mimetypes maps
.html/.htm to text/html, and the first branch guard
`mime_type and 'text' in mime_type` of line 56 matches text/html, so such
files are read raw by the plain-text branch; the dedicated HTML branch of
lines 103-106 is unreachable for them, whatever document libraries are
installed.  This contradicts both the claim and the evident intent of the
dedicated HTML branch. -/
theorem html_files_dispatch_to_text_branch :
    fileBranch (effectiveMime none ".html") ".html" ⟨true, true, true, true⟩ = .textRaw ∧
    fileBranch (effectiveMime none ".htm") ".htm" ⟨true, true, true, true⟩ = .textRaw ∧
    FileBranch.textRaw ≠ FileBranch.html ∧
    fileBranch (effectiveMime none ".html") ".html" ⟨false, false, false, false⟩ = .textRaw := by
  decide

/-- Claim C4, counterexample.  The claim says both runners write the resolved
API key back into the process environment, so the environment afterwards
contains the caller-supplied key in both runners.  Runner B, invoked with a
configuration carrying api_key "caller-key" in an empty environment,
completes a full extraction passing the key as the api_key parameter of
lx.extract, and the environment after the run still contains no key under any
of the three variable names.  So the claim as stated is false for Runner B. -/
theorem runnerB_environment_unchanged_counterexample :
    (runnerB_main (.ok bCfg) env0 lib0).envAfter = env0 ∧
    env0.langextract = none ∧ env0.gemini = none ∧ env0.openai = none ∧
    (runnerB_main (.ok bCfg) env0 lib0).libArg = some bCallExpected :=
  ⟨rfl, rfl, rfl, rfl, rfl⟩

/-- Claim C4, amended.  Only Runner A writes the resolved API key back into
the process environment (os.environ['GEMINI_API_KEY'] = api_key, line 209)
before importing and invoking the library; Runner B never mutates the
environment and instead passes the key resolved by its fallback chain as the
explicit api_key argument of lx.extract. -/
theorem api_key_environment_write_asymmetry :
    (∀ (c : AConfigRaw) (w : AWorld) (t k : String),
       firstMissingField c = none → resolveInput c w = .text t →
       pyOr c.apiKey w.envGemini = some k → k ≠ "" →
       (runnerA_main c w).envGeminiAfter = some k) ∧
    (∀ (cfgLoad : Except String BConfigRaw) (env : Env3)
       (lib : BLibCall → Except String (List ExtractionOut)),
       (runnerB_main cfgLoad env lib).envAfter = env) ∧
    (∀ (cfg : BConfigRaw) (env : Env3)
       (lib : BLibCall → Except String (List ExtractionOut)) (call : BLibCall),
       (runnerB_main (.ok cfg) env lib).libArg = some call →
       call.api_key = pyOr cfg.api_key (pyOr env.langextract (pyOr env.gemini env.openai))) := by
  refine ⟨?_, ?_, ?_⟩
  · intro c w t k hv hres hk hne
    rw [runnerA_main_envAfter_eq]
    unfold runnerA_core
    rw [hv, hres, hk]
    simp only [hne, if_false]
    cases w.libImport <;> cases w.libResult <;> simp
  · intro cfgLoad env lib
    cases cfgLoad <;> rfl
  · intro cfg env lib call h
    unfold runnerB_main run_extraction at h
    simp only [] at h
    repeat' split at h
    all_goals (simp at h; try rw [← h])

/-- Witness for claim C4's amended theorem: on concrete runs, Runner A ends
with GEMINI_API_KEY set to the caller's key while Runner B leaves the empty
environment empty and passes the key as the library-call argument. -/
theorem api_key_environment_write_asymmetry_witness :
    (runnerA_main cfgLit w0).envGeminiAfter = some "k" ∧
    (runnerB_main (.ok bCfg) env0 lib0).envAfter = env0 ∧
    bCallExpected.api_key =
      pyOr bCfg.api_key (pyOr env0.langextract (pyOr env0.gemini env0.openai)) :=
  ⟨api_key_environment_write_asymmetry.1 cfgLit w0 "hello" "k" rfl rfl rfl (by decide),
   api_key_environment_write_asymmetry.2.1 (.ok bCfg) env0 lib0,
   api_key_environment_write_asymmetry.2.2 bCfg env0 lib0 bCallExpected rfl⟩

/-- Claim C5.  For every Runner A configuration whose promptDescription is
exactly "Extract text content" and whose filePath names an existing file from
which non-blank text is extracted, the pipeline short-circuits: the
extraction library is never invoked, the process exits 0, and the printed
JSON is exactly the object with success true, the extracted text, and the
minimal metadata of input length and elapsed time (lines 179-189). -/
theorem runnerA_sentinel_short_circuit (c : AConfigRaw) (w : AWorld) (fp t : String)
    (hv : firstMissingField c = none)
    (hpd : c.promptDescription = some "Extract text content")
    (hfp : c.filePath = some fp) (hne : fp ≠ "")
    (hex : w.fileExists = true)
    (hft : w.fileText = .ok t)
    (ht : isBlank t = false) :
    (runnerA_main c w).libCalled = false ∧
    (runnerA_main c w).exitCode = 0 ∧
    aOutputJson (runnerA_main c w).output =
      .obj [("success", .b true), ("extractedText", .s t),
            ("metadata", .obj [("inputLength", .n t.length),
                               ("processingTime", .n w.elapsedMs)])] := by
  have hres : resolveInput c w = .shortCircuit t := by
    unfold resolveInput
    simp [fileGate, hfp, hne, hex, hft, ht, hpd]
  refine ⟨?_, ?_, ?_⟩ <;> simp [runnerA_main, runnerA_core, hv, hres, aOutputJson]

/-- Witness for claim C5's theorem at a concrete configuration and file. -/
theorem runnerA_sentinel_short_circuit_witness :
    (runnerA_main cfgSentinel wFile).libCalled = false ∧
    (runnerA_main cfgSentinel wFile).exitCode = 0 ∧
    aOutputJson (runnerA_main cfgSentinel wFile).output =
      .obj [("success", .b true), ("extractedText", .s "file body"),
            ("metadata", .obj [("inputLength", .n (String.length "file body")),
                               ("processingTime", .n wFile.elapsedMs)])] :=
  runnerA_sentinel_short_circuit cfgSentinel wFile "/tmp/in.txt" "file body"
    rfl rfl rfl (by decide) rfl rfl (by decide)

/-- Claim C6.  For every library result of three extractions with classes
A, A, B and confidences 1/2, 7/10, missing, Runner A's metadata reports
totalExtractions 3, uniqueClasses 2 and averageConfidence 3/5, the mean of
the two present confidences with the missing one excluded; and whenever no
extraction reports a confidence, averageConfidence stays at its default 0. -/
theorem runnerA_metadata_counts_and_average (e1 e2 e3 : ExtractionOut)
    (t : String) (pt : ℚ) (v : String)
    (h1 : e1.extraction_class = "A") (h2 : e2.extraction_class = "A")
    (h3 : e3.extraction_class = "B")
    (hc1 : e1.confidence = some (1 / 2)) (hc2 : e2.confidence = some (7 / 10))
    (hc3 : e3.confidence = none) :
    (buildEnvelope [e1, e2, e3] t pt v).totalExtractions = 3 ∧
    (buildEnvelope [e1, e2, e3] t pt v).uniqueClasses = 2 ∧
    (buildEnvelope [e1, e2, e3] t pt v).averageConfidence = 3 / 5 ∧
    ∀ exts : List ExtractionOut, (∀ e ∈ exts, e.confidence = none) →
      (buildEnvelope exts t pt v).averageConfidence = 0 := by
  refine ⟨?_, ?_, ?_, ?_⟩
  · simp [buildEnvelope]
  · simp [buildEnvelope, h1, h2, h3]
  · simp [buildEnvelope, avgConfidenceA, hc1, hc2, hc3]
    norm_num
  · intro exts h
    by_cases he : exts.isEmpty
    · simp [buildEnvelope, he]
    · have hnil : exts.filterMap (·.confidence) = [] := by
        rw [List.filterMap_eq_nil_iff]; exact h
      simp [buildEnvelope, avgConfidenceA, he, hnil]

/-- Witness for claim C6's theorem at three concrete extractions. -/
theorem runnerA_metadata_counts_and_average_witness :
    (buildEnvelope [extA, extA7, extB] "" 0 "").totalExtractions = 3 ∧
    (buildEnvelope [extA, extA7, extB] "" 0 "").uniqueClasses = 2 ∧
    (buildEnvelope [extA, extA7, extB] "" 0 "").averageConfidence = 3 / 5 :=
  ⟨(runnerA_metadata_counts_and_average extA extA7 extB "" 0 "" rfl rfl rfl rfl rfl rfl).1,
   (runnerA_metadata_counts_and_average extA extA7 extB "" 0 "" rfl rfl rfl rfl rfl rfl).2.1,
   (runnerA_metadata_counts_and_average extA extA7 extB "" 0 "" rfl rfl rfl rfl rfl rfl).2.2.1⟩

/-- Claim C7.  The Excel handler emits, for every sheet, the header line
naming the sheet followed by one tab-joined line per row whose rendered cells
are not all blank, omitting all-blank rows (None cells render as the empty
string); in particular the sheet Sheet1 with rows [a, b] and two blank cells
yields exactly the header line, the line with a tab between a and b, and no
line for the all-blank row. -/
theorem excel_text_structure :
    (∀ sheets, excel_lines sheets =
        sheets.flatMap (fun sheet => ("Sheet: " ++ sheet.1) :: sheet.2.filterMap rowLine)) ∧
    rowLine [some "", some ""] = none ∧
    rowLine [some "a", some "b"] = some "a\tb" ∧
    excel_text [("Sheet1", [[some "a", some "b"], [some "", some ""]])] =
      "Sheet: Sheet1\na\tb" := by
  refine ⟨?_, by rfl, by rfl, by rfl⟩
  intro sheets
  unfold excel_lines
  rw [excel_lines_flatMap]
  simp

/-- Claim C8.  The four required keys are exactly inputText,
promptDescription, examples, modelId (first conjunct), and for every valid
JSON configuration missing at least one of them, Runner A prints a JSON
object with success false whose error message names the first missing field,
and exits with the non-zero status 1 (second conjunct). -/
theorem runnerA_missing_required_field (c : AConfigRaw) (w : AWorld) :
    (firstMissingField c = none ↔
      (c.inputText.isSome ∧ c.promptDescription.isSome ∧
       c.examples.isSome ∧ c.modelId.isSome)) ∧
    ∀ f, firstMissingField c = some f →
      (runnerA_main c w).exitCode = 1 ∧
      objGet (aOutputJson (runnerA_main c w).output) "success" = some (.b false) ∧
      objGet (aOutputJson (runnerA_main c w).output) "error" =
        some (.s ("Missing required field: " ++ f)) := by
  constructor
  · unfold firstMissingField
    split_ifs with h1 h2 h3 h4 <;>
      simp_all [Option.isNone_iff_eq_none, Option.isSome_iff_ne_none]
  · intro f hf
    refine ⟨?_, ?_, ?_⟩ <;>
      simp [runnerA_main, runnerA_core, hf, aOutputJson, objGet, List.lookup]

/-- Witness for claim C8's theorem: the all-empty configuration is reported
with its first missing field, inputText. -/
theorem runnerA_missing_required_field_witness :
    (runnerA_main cfgEmpty w0).exitCode = 1 ∧
    objGet (aOutputJson (runnerA_main cfgEmpty w0).output) "success" = some (.b false) ∧
    objGet (aOutputJson (runnerA_main cfgEmpty w0).output) "error" =
      some (.s ("Missing required field: " ++ "inputText")) :=
  (runnerA_missing_required_field cfgEmpty w0).2 "inputText" rfl

/-- Claim C9.  After a successful library import, every Runner B failure
(config-file read failure, example translation failure, or library-invocation
failure) is printed as the JSON object with exactly the two keys success
(false) and error (the message) — no error-kind label, no traceback — and the
process exit status is 0 on every path. -/
theorem runnerB_failure_message_only_exit_zero (cfgLoad : Except String BConfigRaw)
    (env : Env3) (lib : BLibCall → Except String (List ExtractionOut)) :
    (runnerB_main cfgLoad env lib).exitCode = 0 ∧
    (∀ e, cfgLoad = .error e → (runnerB_main cfgLoad env lib).printed = .errB e) ∧
    ∀ m, (runnerB_main cfgLoad env lib).printed = .errB m →
      bPrintedJson (runnerB_main cfgLoad env lib).printed =
        .obj [("success", .b false), ("error", .s m)] := by
  refine ⟨?_, ?_, ?_⟩
  · cases cfgLoad <;> rfl
  · intro e he; subst he; rfl
  · intro m hm; rw [hm]; rfl

/-- Witness for claim C9's theorem: a failing config load is printed as the
two-key error object and the exit status is 0. -/
theorem runnerB_failure_message_only_exit_zero_witness :
    (runnerB_main (.error "boom") env0 lib0).exitCode = 0 ∧
    bPrintedJson (runnerB_main (.error "boom") env0 lib0).printed =
      .obj [("success", .b false), ("error", .s "boom")] :=
  ⟨(runnerB_failure_message_only_exit_zero (.error "boom") env0 lib0).1,
   (runnerB_failure_message_only_exit_zero (.error "boom") env0 lib0).2.2 "boom" rfl⟩

/-- Claim C10.  When filePath is supplied but no file exists at that path,
Runner A raises no error for the missing file: the run is identical to one
with no filePath at all; input resolution falls through to the URL branch
when inputText starts with http:// or https:// and to the literal inputText
otherwise; and whenever the library ends up invoked, it receives the fetched
URL text in the first case and the unchanged literal inputText in the
second. -/
theorem runnerA_missing_file_falls_through (c : AConfigRaw) (w : AWorld) (fp : String)
    (hfp : c.filePath = some fp) (hex : w.fileExists = false) :
    runnerA_main c w = runnerA_main { c with filePath := none } w ∧
    resolveInput c w =
      (if pyStartsWith (c.inputText.getD "") "http://"
          || pyStartsWith (c.inputText.getD "") "https://"
       then urlResolve w else .text (c.inputText.getD "")) ∧
    (∀ u, w.urlText = .ok u → isBlank u = false →
      (pyStartsWith (c.inputText.getD "") "http://"
        || pyStartsWith (c.inputText.getD "") "https://") = true →
      (runnerA_main c w).libCalled = true →
      (runnerA_main c w).libInput = some u) ∧
    ((pyStartsWith (c.inputText.getD "") "http://"
        || pyStartsWith (c.inputText.getD "") "https://") = false →
      (runnerA_main c w).libCalled = true →
      (runnerA_main c w).libInput = some (c.inputText.getD "")) := by
  have hgate : fileGate c.filePath w.fileExists = false := by
    rw [hfp, hex]; simp [fileGate]
  have hres : resolveInput c w =
      (if pyStartsWith (c.inputText.getD "") "http://"
          || pyStartsWith (c.inputText.getD "") "https://"
       then urlResolve w else .text (c.inputText.getD "")) := by
    unfold resolveInput
    rw [hgate]
    simp
  refine ⟨?_, hres, ?_, ?_⟩
  · have hres' : resolveInput { c with filePath := none } w = resolveInput c w := by
      unfold resolveInput
      rw [hgate]
      simp [fileGate]
    have e1 : firstMissingField { c with filePath := none } = firstMissingField c := rfl
    have e2 : ({ c with filePath := none } : AConfigRaw).apiKey = c.apiKey := rfl
    unfold runnerA_main runnerA_core
    rw [e1, e2, hres']
  · intro u hu hb hhttp hcall
    obtain ⟨t, ht, hi⟩ := runnerA_lib_text c w hcall
    have hu' : resolveInput c w = .text u := by
      rw [hres, hhttp]
      simp [urlResolve, hu, hb]
    rw [ht] at hu'
    obtain rfl : t = u := by injection hu'
    exact hi
  · intro hhttp hcall
    obtain ⟨t, ht, hi⟩ := runnerA_lib_text c w hcall
    have hl : resolveInput c w = .text (c.inputText.getD "") := by
      rw [hres, hhttp]
      simp
    rw [ht] at hl
    obtain rfl : t = c.inputText.getD "" := by injection hl
    exact hi

/-- Witness for claim C10's theorem: a configuration naming a non-existent
file behaves as if no file path were given, and the literal (non-URL) input
text reaches the library unchanged. -/
theorem runnerA_missing_file_falls_through_witness :
    runnerA_main cfgGhost w0 = runnerA_main { cfgGhost with filePath := none } w0 ∧
    (runnerA_main cfgGhost w0).libCalled = true ∧
    (runnerA_main cfgGhost w0).libInput = some "hello" := by
  obtain ⟨h1, h2, h3, h4⟩ := runnerA_missing_file_falls_through cfgGhost w0 "/tmp/ghost.txt" rfl rfl
  exact ⟨h1, rfl, h4 (by decide) rfl⟩
